import Mathlib

/-!
Verification of the configuration-lifecycle state machine of the s4tk-vscode
excerpt (`src/workspace/s4tk-workspace.ts`) and of the URI-validity helper
(`src/contributions/commands/isURI.ts`).

The stateful class `_S4TKWorkspace` is embedded as pure functions from an
environment (the observable file-system facts) and the current workspace state
to a new state plus a list of emitted effects (notifications, context updates,
file writes).  The external collaborators from `@models/s4tk-config`
(`CONFIG_FILENAME`, `parseConfig`, `stringifyConfig`, `DEFAULT_CONFIG_CONTENT`)
are not part of the excerpt; they are modelled from the spec, as marked on each
definition.
-/

namespace S4TK

/-- A JSON value (abstract syntax of the configuration document's text). -/
inductive Json where
  | null
  | bool (b : Bool)
  | num (n : Int)
  | str (s : String)
  | arr (elems : List Json)
  | obj (fields : List (String × Json))

/-- The optional string-tables sub-record of a configuration.  The spec
requires it to contain at least a `defaultPath` field. -/
structure StringTablesSettings where
  defaultPath : String
deriving DecidableEq, Repr

/-- Modelled from the spec: a validated `S4TKConfig` record (defined in
`@models/s4tk-config`, outside the excerpt).  Per the spec it holds a required
project-wide path mapping for build inputs/outputs and an optional
string-tables sub-record with a `defaultPath`. -/
structure S4TKConfig where
  buildPaths : List (String × String)
  stringTables : Option StringTablesSettings
deriving DecidableEq, Repr

/-- A configuration document on disk, at the granularity the program observes:
either text that is not syntactically valid JSON (carrying the parser's
message), or valid JSON text with the given abstract syntax. -/
inductive ConfigDoc where
  | malformed (parserMessage : String)
  | json (value : Json)

/-- The errors `parseConfig` can raise: a JSON `SyntaxError` (carrying
`err.message`) or a jsonschema `ValidationError` (carrying `err.stack`, the
structured per-field violation detail). -/
inductive ParseErr where
  | syntaxError (message : String)
  | validationError (stack : String)
deriving DecidableEq, Repr

/-- Decode a JSON object's fields as a string-to-string mapping. -/
def decodeStringMap : List (String × Json) → Option (List (String × String))
  | [] => some []
  | (k, Json.str v) :: rest => (decodeStringMap rest).map (fun r => (k, v) :: r)
  | _ => none

/-- Modelled from the spec: schema validation of a parsed JSON document
(performed inside `parseConfig` in `@models/s4tk-config`, outside the
excerpt).  The schema requires a `buildPaths` object of strings and optionally
a `stringTables` object with a string `defaultPath`; failures carry structured
path-plus-message detail. -/
def validateConfig (v : Json) : Except ParseErr S4TKConfig :=
  match v with
  | Json.obj fields =>
    match fields.lookup "buildPaths" with
    | none => Except.error (ParseErr.validationError
        "instance requires property \x22buildPaths\x22")
    | some (Json.obj bpFields) =>
      match decodeStringMap bpFields with
      | none => Except.error (ParseErr.validationError
          "instance.buildPaths properties are not of a type(s) string")
      | some m =>
        match fields.lookup "stringTables" with
        | none => Except.ok { buildPaths := m, stringTables := none }
        | some (Json.obj stFields) =>
          match stFields.lookup "defaultPath" with
          | some (Json.str p) =>
              Except.ok { buildPaths := m, stringTables := some { defaultPath := p } }
          | some _ => Except.error (ParseErr.validationError
              "instance.stringTables.defaultPath is not of a type(s) string")
          | none => Except.error (ParseErr.validationError
              "instance.stringTables requires property \x22defaultPath\x22")
        | some _ => Except.error (ParseErr.validationError
            "instance.stringTables is not of a type(s) object")
    | some _ => Except.error (ParseErr.validationError
        "instance.buildPaths is not of a type(s) object")
  | _ => Except.error (ParseErr.validationError "instance is not of a type(s) object")

/-- Modelled from the spec: `parseConfig` from `@models/s4tk-config` (outside
the excerpt): parse the document's JSON text (throwing `SyntaxError` on
malformed text) and validate it against the configuration schema (throwing
`ValidationError` on a schema violation). -/
def parseConfig : ConfigDoc → Except ParseErr S4TKConfig
  | ConfigDoc.malformed m => Except.error (ParseErr.syntaxError m)
  | ConfigDoc.json v => validateConfig v

/-- The canonical JSON form of a configuration. -/
def configToJson (c : S4TKConfig) : Json :=
  Json.obj
    (("buildPaths", Json.obj (c.buildPaths.map (fun kv => (kv.1, Json.str kv.2)))) ::
      (match c.stringTables with
        | none => []
        | some st => [("stringTables", Json.obj [("defaultPath", Json.str st.defaultPath)])]))

/-- Modelled from the spec: `stringifyConfig` from `@models/s4tk-config`
(outside the excerpt): re-serialize the full Configuration back to the
canonical JSON text form. -/
def stringifyConfig (c : S4TKConfig) : ConfigDoc :=
  ConfigDoc.json (configToJson c)

theorem decodeStringMap_map (l : List (String × String)) :
    decodeStringMap (l.map (fun kv => (kv.1, Json.str kv.2))) = some l := by
  induction l with
  | nil => rfl
  | cons kv t ih =>
    cases kv
    simp [decodeStringMap, ih]

/-- Serialization round-trip: the canonical JSON form of a configuration
parses and validates back to the same configuration. -/
theorem parseConfig_stringifyConfig (c : S4TKConfig) :
    parseConfig (stringifyConfig c) = Except.ok c := by
  obtain ⟨bp, st⟩ := c
  cases st with
  | none =>
    simp [parseConfig, stringifyConfig, configToJson, validateConfig,
      List.lookup, decodeStringMap_map]
  | some stv =>
    obtain ⟨p⟩ := stv
    simp [parseConfig, stringifyConfig, configToJson, validateConfig,
      List.lookup, decodeStringMap_map]

/-- Modelled from the spec and the source strings: the fixed config filename
constant `CONFIG_FILENAME` from `@models/s4tk-config` (outside the excerpt);
`loadConfig` names it in its warning text and doc comment. -/
def CONFIG_FILENAME : String := "s4tk.config.json"

def GET_HELP_BUTTON : String := "Get Help"

def REPORT_PROBLEM_BUTTON : String := "Report Problem"

def RELOAD_CONFIG_BUTTON : String := "Reload Config"

def CREATE_PROJECT_BUTTON : String := "Create S4TK Project"

/-- A user-facing notification: `vscode.window.showInformationMessage`,
`showWarningMessage` or `showErrorMessage`, with its action buttons. -/
inductive Notification where
  | info (message : String)
  | warning (message : String) (buttons : List String)
  | error (message : String) (buttons : List String)
deriving DecidableEq, Repr

/-- An observable side effect issued by the workspace component. -/
inductive Effect where
  | setContext (key : String) (value : Bool)
  | notify (n : Notification)
  | writeFile (path : String) (content : ConfigDoc)
  | openDocument (path : String)
  | createDirectory (path : String)

/-- The mutable state of `_S4TKWorkspace`: the private `_config` slot. -/
structure WorkspaceState where
  _config : Option S4TKConfig
deriving DecidableEq

/-- The private `config` setter: stores the value in `_config` and, as a side
effect, propagates `Boolean(config)` to the editor context key
`s4tk.workspace.active` via `executeCommand('setContext', ...)`. -/
def setConfig (_s : WorkspaceState) (c : Option S4TKConfig) :
    WorkspaceState × List Effect :=
  ({ _config := c }, [Effect.setContext "s4tk.workspace.active" c.isSome])

/-- The `active` getter: `Boolean(this._config)`. -/
def active (s : WorkspaceState) : Bool :=
  s._config.isSome

/-- The observable file-system facts an operation runs against: whether a
workspace root folder is open and its path, whether the config file exists
there and its contents, and (for scaffolding) whether the default string
table exists and the externally generated placeholder content. -/
structure Env where
  hasRoot : Bool
  rootPath : String
  configExists : Bool
  configContent : ConfigDoc
  stblExists : Bool
  generatedStbl : Json

/-- `vscode.Uri.joinPath`, on path strings. -/
def joinPath (base child : String) : String :=
  base ++ "/" ++ child

/-- Character-level suffix test, modelling JavaScript's
`String.prototype.endsWith` as used on file paths. -/
def endsWith (s suffix : String) : Bool :=
  suffix.data.isSuffixOf s.data

/-- The result of the `_findConfig` helper. -/
structure ConfigUriInfo where
  uri : Option String
  fileExists : Bool

/-- The `_findConfig` helper: resolve the workspace root's config-file URI and
check its existence; no URI when no workspace folder is open. -/
def _findConfig (env : Env) : ConfigUriInfo :=
  if env.hasRoot then
    { uri := some (joinPath env.rootPath CONFIG_FILENAME), fileExists := env.configExists }
  else
    { uri := none, fileExists := false }

/-- The options bag of `loadConfig`. -/
structure LoadOptions where
  showNoConfigError : Bool := false

/-- The error message template of `loadConfig`'s catch block, with the thrown
error's text interpolated. -/
def configErrorMessage (errMsg : String) : String :=
  "Could not validate S4TK config. You will not be able to build your project until all errors are resolved and the config has been reloaded. (" ++ errMsg ++ ")"

/-- `loadConfig`: clear the config slot, locate the backing file, then read,
parse and validate it; returns the new state, the emitted effects, and the
returned value (the loaded config, or `undefined`).  The thrown
`SyntaxError` / `ValidationError` of `parseConfig` is caught inside and turned
into a single error notification; nothing escapes to the caller. -/
def loadConfig (env : Env) (options : LoadOptions) (s : WorkspaceState) :
    WorkspaceState × List Effect × Option S4TKConfig :=
  let (s1, eff1) := setConfig s none
  let info := _findConfig env
  match info.uri, info.fileExists with
  | some _, true =>
    (match parseConfig env.configContent with
      | Except.ok config =>
        let (s2, eff2) := setConfig s1 (some config)
        (s2,
          eff1 ++ [Effect.notify (Notification.info "Successfully loaded S4TK config.")] ++ eff2,
          some config)
      | Except.error err =>
        let errMsg :=
          match err with
          | ParseErr.syntaxError m => m
          | ParseErr.validationError st => st
        (s1,
          eff1 ++ [Effect.notify (Notification.error (configErrorMessage errMsg)
            [GET_HELP_BUTTON, RELOAD_CONFIG_BUTTON])],
          none))
  | _, _ =>
    if options.showNoConfigError then
      (s1,
        eff1 ++ [Effect.notify (Notification.warning
          "No 's4tk.config.json' file was found at the root of this project."
          [CREATE_PROJECT_BUTTON])],
        none)
    else
      (s1, eff1, none)

/-- The `onDidDeleteFiles` handler registered by `activate`: if some deleted
file's path ends with the config filename, clear the config slot (through the
setter) and warn that the config was unloaded; otherwise do nothing. -/
def onDidDeleteFiles (deletedPaths : List String) (s : WorkspaceState) :
    WorkspaceState × List Effect :=
  if deletedPaths.any (fun p => endsWith p CONFIG_FILENAME) then
    let (s1, eff1) := setConfig s none
    (s1, eff1 ++ [Effect.notify (Notification.warning "S4TK config unloaded." [])])
  else
    (s, [])

/-- `setDefaultStbl`: with no config loaded, report an error; otherwise mutate
the in-memory config's string-tables `defaultPath` in place (creating the
sub-record if absent; this writes through `_config` directly, not through the
setter), then re-resolve the backing file and overwrite it with the
re-serialized config, or report an unrecoverable error if the file cannot be
located.  `stblPath` is the clicked URI's `fsPath`. -/
def setDefaultStbl (env : Env) (stblPath : String) (s : WorkspaceState) :
    WorkspaceState × List Effect :=
  match s._config with
  | none =>
    (s, [Effect.notify (Notification.error
      "Cannot set this STBL as default because no S4TK config is currently loaded."
      [RELOAD_CONFIG_BUTTON])])
  | some cfg =>
    let newStringTables :=
      match cfg.stringTables with
      | none => { defaultPath := stblPath : StringTablesSettings }
      | some st => { st with defaultPath := stblPath }
    let cfg1 := { cfg with stringTables := some newStringTables }
    let s1 : WorkspaceState := { _config := some cfg1 }
    match (_findConfig env).uri with
    | some configUri =>
      (s1, [Effect.writeFile configUri (stringifyConfig cfg1)])
    | none =>
      (s1, [Effect.notify (Notification.error
        "Failed to locate config file while updating default STBL. Please report this problem."
        [REPORT_PROBLEM_BUTTON])])

/-- Modelled from the spec: the fixed default document
`DEFAULT_CONFIG_CONTENT` from `@models/s4tk-config` (outside the excerpt).
Its exact contents are not in the excerpt; the claims do not depend on its
value, only on it being a fixed document. -/
def DEFAULT_CONFIG_CONTENT : ConfigDoc :=
  ConfigDoc.json (Json.obj [("buildPaths", Json.obj [])])

/-- The file-system facts after the default config has been written: the
config file now exists and holds the default document. -/
def afterConfigWrite (env : Env) : Env :=
  { env with configExists := true, configContent := DEFAULT_CONFIG_CONTENT }

/-- `createDefaultProject`: warn and stop if the config file already exists;
report an unrecoverable error if no config URI can be built; otherwise write
the default config, open it, reload the config (against the file-system state
after the write), create the `out` / `src` / `strings` directories, and write
a generated placeholder string table unless one already exists.  The source
issues the post-write steps concurrently; the model fixes one serialization of
that schedule. -/
def createDefaultProject (env : Env) (s : WorkspaceState) :
    WorkspaceState × List Effect :=
  let configUriInfo := _findConfig env
  if configUriInfo.fileExists then
    (s, [Effect.notify (Notification.warning "S4TK config file already exists." [])])
  else
    match configUriInfo.uri with
    | none =>
      (s, [Effect.notify (Notification.error
        "Failed to create config file. Please report this problem."
        [REPORT_PROBLEM_BUTTON])])
    | some configUri =>
      let (s1, loadEffs, _) := loadConfig (afterConfigWrite env) {} s
      let stblPath := joinPath (joinPath env.rootPath "strings") "default.stbl.json"
      (s1,
        [Effect.writeFile configUri DEFAULT_CONFIG_CONTENT,
          Effect.openDocument configUri] ++
        loadEffs ++
        [Effect.createDirectory (joinPath env.rootPath "out"),
          Effect.createDirectory (joinPath env.rootPath "src"),
          Effect.createDirectory (joinPath env.rootPath "strings")] ++
        (if env.stblExists then []
          else [Effect.writeFile stblPath (ConfigDoc.json env.generatedStbl)]))

/-- The error notifications among a list of effects. -/
def errorNotifs (effs : List Effect) : List (String × List String) :=
  effs.filterMap (fun e =>
    match e with
    | Effect.notify (Notification.error m bs) => some (m, bs)
    | _ => none)

/-- The warning notifications among a list of effects. -/
def warningNotifs (effs : List Effect) : List (String × List String) :=
  effs.filterMap (fun e =>
    match e with
    | Effect.notify (Notification.warning m bs) => some (m, bs)
    | _ => none)

/-- The values pushed to the `s4tk.workspace.active` context key, in order. -/
def contextUpdates (effs : List Effect) : List Bool :=
  effs.filterMap (fun e =>
    match e with
    | Effect.setContext k b => if k = "s4tk.workspace.active" then some b else none
    | _ => none)

/-- The file writes among a list of effects. -/
def fileWrites (effs : List Effect) : List (String × ConfigDoc) :=
  effs.filterMap (fun e =>
    match e with
    | Effect.writeFile p c => some (p, c)
    | _ => none)

/-- The directory creations among a list of effects. -/
def dirCreates (effs : List Effect) : List String :=
  effs.filterMap (fun e =>
    match e with
    | Effect.createDirectory p => some p
    | _ => none)

/-- `isURI` from `src/contributions/commands/isURI.ts`: attempt the `URL`
constructor (modelled as an arbitrary fallible function `tryURL`, since `URL`
comes from `node:url`, outside the excerpt) on the input inside a try/catch,
returning `true` on success and `false` on any thrown error. -/
def isURI {α ε υ : Type} (tryURL : α → Except ε υ) (something : α) : Bool :=
  match tryURL something with
  | Except.ok _ => true
  | Except.error _ => false

/-- A sample validated configuration used by the concrete witnesses. -/
def sampleConfig : S4TKConfig :=
  { buildPaths := [("src", "out")], stringTables := none }

/-- A sample well-formed configuration document. -/
def sampleDoc : ConfigDoc :=
  ConfigDoc.json (Json.obj [("buildPaths", Json.obj [("src", Json.str "out")])])

/-- A sample environment with a well-formed config file present. -/
def sampleEnv : Env :=
  { hasRoot := true, rootPath := "/proj", configExists := true,
    configContent := sampleDoc, stblExists := false, generatedStbl := Json.null }

theorem parseConfig_sampleDoc : parseConfig sampleDoc = Except.ok sampleConfig := by
  rfl

/-- Shape of `loadConfig` on the success path: the file is found and
parse-plus-validate succeeds. -/
theorem loadConfig_success_eq (env : Env) (opts : LoadOptions) (s : WorkspaceState)
    (cfg : S4TKConfig) (hroot : env.hasRoot = true) (hex : env.configExists = true)
    (hp : parseConfig env.configContent = Except.ok cfg) :
    loadConfig env opts s =
      (⟨some cfg⟩,
        [Effect.setContext "s4tk.workspace.active" false,
          Effect.notify (Notification.info "Successfully loaded S4TK config."),
          Effect.setContext "s4tk.workspace.active" true],
        some cfg) := by
  simp [loadConfig, _findConfig, setConfig, hroot, hex, hp]

/-- Shape of `loadConfig` when the file is found but `parseConfig` throws. -/
theorem loadConfig_parseError_eq (env : Env) (opts : LoadOptions) (s : WorkspaceState)
    (err : ParseErr) (hroot : env.hasRoot = true) (hex : env.configExists = true)
    (hp : parseConfig env.configContent = Except.error err) :
    loadConfig env opts s =
      (⟨none⟩,
        [Effect.setContext "s4tk.workspace.active" false,
          Effect.notify (Notification.error
            (configErrorMessage
              (match err with
                | ParseErr.syntaxError m => m
                | ParseErr.validationError st => st))
            [GET_HELP_BUTTON, RELOAD_CONFIG_BUTTON])],
        none) := by
  cases err with
  | syntaxError m => simp [loadConfig, _findConfig, setConfig, hroot, hex, hp]
  | validationError st => simp [loadConfig, _findConfig, setConfig, hroot, hex, hp]

/-- Shape of `loadConfig` when the backing file is absent or no workspace root
is open. -/
theorem loadConfig_noFile_eq (env : Env) (opts : LoadOptions) (s : WorkspaceState)
    (h : env.hasRoot = false ∨ env.configExists = false) :
    loadConfig env opts s =
      (⟨none⟩,
        Effect.setContext "s4tk.workspace.active" false ::
          (if opts.showNoConfigError then
            [Effect.notify (Notification.warning
              "No 's4tk.config.json' file was found at the root of this project."
              [CREATE_PROJECT_BUTTON])]
          else []),
        none) := by
  rcases h with h | h
  · cases hw : opts.showNoConfigError <;>
      simp [loadConfig, _findConfig, setConfig, h, hw]
  · cases hr : env.hasRoot <;> cases hw : opts.showNoConfigError <;>
      simp [loadConfig, _findConfig, setConfig, h, hr, hw]

/-- C1: for every configuration document that parses as JSON and passes schema
validation, `loadConfig` stores a Configuration equal to the parsed document,
returns that Configuration, and leaves the derived `active` flag true. -/
theorem loadConfig_success_stores_config (env : Env) (opts : LoadOptions)
    (s : WorkspaceState) (cfg : S4TKConfig)
    (hroot : env.hasRoot = true) (hex : env.configExists = true)
    (hp : parseConfig env.configContent = Except.ok cfg) :
    (loadConfig env opts s).1._config = some cfg ∧
    (loadConfig env opts s).2.2 = some cfg ∧
    active (loadConfig env opts s).1 = true := by
  rw [loadConfig_success_eq env opts s cfg hroot hex hp]
  simp [active]

/-- Witness for C1 at a concrete well-formed document. -/
theorem loadConfig_success_stores_config_witness :
    (loadConfig sampleEnv {} ⟨none⟩).1._config = some sampleConfig ∧
    (loadConfig sampleEnv {} ⟨none⟩).2.2 = some sampleConfig ∧
    active (loadConfig sampleEnv {} ⟨none⟩).1 = true :=
  loadConfig_success_stores_config sampleEnv {} ⟨none⟩ sampleConfig rfl rfl rfl

/-- C2: `loadConfig` first forces the state to Unloaded (the first emitted
effect clears the `active` context), and on every failing input (backing file
absent, JSON parse error, or schema validation error) the final state is
Unloaded and the returned value is `undefined`, regardless of the previous
state. -/
theorem loadConfig_failure_unloaded (env : Env) (opts : LoadOptions)
    (s : WorkspaceState) :
    (loadConfig env opts s).2.1.head? =
      some (Effect.setContext "s4tk.workspace.active" false) ∧
    (¬ (env.hasRoot = true ∧ env.configExists = true ∧
        ∃ cfg, parseConfig env.configContent = Except.ok cfg) →
      (loadConfig env opts s).1._config = none ∧
      (loadConfig env opts s).2.2 = none) := by
  by_cases hroot : env.hasRoot = true
  · by_cases hex : env.configExists = true
    · cases hp : parseConfig env.configContent with
      | ok cfg =>
        rw [loadConfig_success_eq env opts s cfg hroot hex hp]
        exact ⟨rfl, fun h => absurd ⟨hroot, hex, cfg, rfl⟩ h⟩
      | error err =>
        rw [loadConfig_parseError_eq env opts s err hroot hex hp]
        exact ⟨rfl, fun _ => ⟨rfl, rfl⟩⟩
    · rw [loadConfig_noFile_eq env opts s (Or.inr (Bool.not_eq_true _ ▸ hex))]
      exact ⟨rfl, fun _ => ⟨rfl, rfl⟩⟩
  · rw [loadConfig_noFile_eq env opts s (Or.inl (Bool.not_eq_true _ ▸ hroot))]
    exact ⟨rfl, fun _ => ⟨rfl, rfl⟩⟩

/-- Witness for C2: a failed reload from a Loaded state ends Unloaded with no
returned value. -/
theorem loadConfig_failure_unloaded_witness :
    (loadConfig { sampleEnv with configExists := false } {}
        ⟨some sampleConfig⟩).1._config = none ∧
    (loadConfig { sampleEnv with configExists := false } {}
        ⟨some sampleConfig⟩).2.2 = none :=
  (loadConfig_failure_unloaded { sampleEnv with configExists := false } {}
      ⟨some sampleConfig⟩).2
    (fun h => absurd h.2.1 (by decide))

/-- C3: `loadConfig` is total (it catches the thrown `SyntaxError` and
`ValidationError` inside; its embedding returns a plain value, never an
exception), and on a JSON-syntax failure it emits exactly one error
notification whose text contains the parser message, while on a
schema-validation failure it emits exactly one error notification whose text
contains the structured per-field violation detail. -/
theorem loadConfig_error_notification (env : Env) (opts : LoadOptions)
    (s : WorkspaceState) :
    (∀ m, env.hasRoot = true → env.configExists = true →
      env.configContent = ConfigDoc.malformed m →
      errorNotifs (loadConfig env opts s).2.1 =
        [(configErrorMessage m, [GET_HELP_BUTTON, RELOAD_CONFIG_BUTTON])] ∧
      ∃ pre post, configErrorMessage m = pre ++ m ++ post) ∧
    (∀ d, env.hasRoot = true → env.configExists = true →
      parseConfig env.configContent = Except.error (ParseErr.validationError d) →
      errorNotifs (loadConfig env opts s).2.1 =
        [(configErrorMessage d, [GET_HELP_BUTTON, RELOAD_CONFIG_BUTTON])] ∧
      ∃ pre post, configErrorMessage d = pre ++ d ++ post) := by
  constructor
  · intro m hroot hex hc
    have hp : parseConfig env.configContent = Except.error (ParseErr.syntaxError m) := by
      rw [hc]; rfl
    rw [loadConfig_parseError_eq env opts s (ParseErr.syntaxError m) hroot hex hp]
    refine ⟨rfl, "Could not validate S4TK config. You will not be able to build your project until all errors are resolved and the config has been reloaded. (", ")", rfl⟩
  · intro d hroot hex hp
    rw [loadConfig_parseError_eq env opts s (ParseErr.validationError d) hroot hex hp]
    refine ⟨rfl, "Could not validate S4TK config. You will not be able to build your project until all errors are resolved and the config has been reloaded. (", ")", rfl⟩

/-- Witness for C3 at a concrete malformed document and a concrete
schema-invalid document. -/
theorem loadConfig_error_notification_witness :
    (errorNotifs (loadConfig { sampleEnv with
        configContent := ConfigDoc.malformed "Unexpected token x in JSON at position 0" } {}
        ⟨none⟩).2.1 =
      [(configErrorMessage "Unexpected token x in JSON at position 0",
        [GET_HELP_BUTTON, RELOAD_CONFIG_BUTTON])]) ∧
    (errorNotifs (loadConfig { sampleEnv with
        configContent := ConfigDoc.json Json.null } {} ⟨none⟩).2.1 =
      [(configErrorMessage "instance is not of a type(s) object",
        [GET_HELP_BUTTON, RELOAD_CONFIG_BUTTON])]) :=
  ⟨((loadConfig_error_notification { sampleEnv with
        configContent := ConfigDoc.malformed "Unexpected token x in JSON at position 0" } {}
        ⟨none⟩).1 "Unexpected token x in JSON at position 0" rfl rfl rfl).1,
    ((loadConfig_error_notification { sampleEnv with
        configContent := ConfigDoc.json Json.null } {}
        ⟨none⟩).2 "instance is not of a type(s) object" rfl rfl rfl).1⟩

/-- C4 counterexample: the deleted set `[/proj/sub/s4tk.config.json]` contains
only files other than the project root backing config file
`/proj/s4tk.config.json`, yet the handler still transitions a Loaded workspace
to Unloaded, because the source matches any deleted path that merely ends with
the config filename. -/
theorem onDidDeleteFiles_unrelated_file_cex :
    ("/proj/sub/s4tk.config.json" ≠ joinPath "/proj" CONFIG_FILENAME) ∧
    (⟨some sampleConfig⟩ : WorkspaceState)._config ≠ none ∧
    (onDidDeleteFiles ["/proj/sub/s4tk.config.json"]
      ⟨some sampleConfig⟩).1._config = none := by
  refine ⟨by decide, by decide, ?_⟩
  decide

/-- C4 (amended): for every file-deletion event, if some deleted path ends
with the config filename then the state transitions to Unloaded and exactly
one warning notification is produced; if no deleted path ends with the config
filename, no state transition occurs and no effect is emitted.  (The source
keys the transition on a path-suffix match against the config filename, not on
identity with the project root backing file.) -/
theorem onDidDeleteFiles_transitions (deletedPaths : List String)
    (s : WorkspaceState) :
    (deletedPaths.any (fun p => endsWith p CONFIG_FILENAME) = true →
      (onDidDeleteFiles deletedPaths s).1._config = none ∧
      warningNotifs (onDidDeleteFiles deletedPaths s).2 =
        [("S4TK config unloaded.", [])]) ∧
    (deletedPaths.any (fun p => endsWith p CONFIG_FILENAME) = false →
      onDidDeleteFiles deletedPaths s = (s, [])) := by
  constructor
  · intro h
    simp [onDidDeleteFiles, setConfig, h, warningNotifs, errorNotifs]
  · intro h
    simp [onDidDeleteFiles, h]

/-- Witness for C4 (amended): deleting the backing file from a Loaded state
unloads with one warning; deleting an unrelated text file changes nothing. -/
theorem onDidDeleteFiles_transitions_witness :
    ((onDidDeleteFiles ["/proj/s4tk.config.json"]
        ⟨some sampleConfig⟩).1._config = none ∧
      warningNotifs (onDidDeleteFiles ["/proj/s4tk.config.json"]
        ⟨some sampleConfig⟩).2 = [("S4TK config unloaded.", [])]) ∧
    onDidDeleteFiles ["/proj/readme.txt"] ⟨some sampleConfig⟩ =
      (⟨some sampleConfig⟩, []) :=
  ⟨(onDidDeleteFiles_transitions ["/proj/s4tk.config.json"]
      ⟨some sampleConfig⟩).1 (by decide),
    (onDidDeleteFiles_transitions ["/proj/readme.txt"]
      ⟨some sampleConfig⟩).2 (by decide)⟩

/-- A sample loaded configuration whose string-tables default path is `/old`,
as in the spec scenario. -/
def sampleConfigOld : S4TKConfig :=
  { buildPaths := [("src", "out")], stringTables := some { defaultPath := "/old" } }

/-- C5: with a configuration loaded and the backing file resolvable,
`setDefaultStbl p` sets the in-memory string-tables default path to `p`
(creating the sub-record if absent), writes the re-serialized configuration to
the backing file, and that content parses back to a configuration whose
default path is `p`. -/
theorem setDefaultStbl_loaded_persists (env : Env) (p : String)
    (s : WorkspaceState) (cfg : S4TKConfig)
    (hc : s._config = some cfg) (hroot : env.hasRoot = true) :
    (setDefaultStbl env p s).1._config =
      some { cfg with stringTables := some { defaultPath := p } } ∧
    (setDefaultStbl env p s).2 =
      [Effect.writeFile (joinPath env.rootPath CONFIG_FILENAME)
        (stringifyConfig { cfg with stringTables := some { defaultPath := p } })] ∧
    parseConfig (stringifyConfig { cfg with stringTables := some { defaultPath := p } }) =
      Except.ok { cfg with stringTables := some { defaultPath := p } } ∧
    ({ cfg with stringTables := some { defaultPath := p } } : S4TKConfig).stringTables =
      some { defaultPath := p } := by
  obtain ⟨bp, st⟩ := cfg
  refine ⟨?_, ?_, parseConfig_stringifyConfig _, rfl⟩ <;>
    cases st with
    | none => simp [setDefaultStbl, hc, _findConfig, hroot]
    | some stv =>
      obtain ⟨q⟩ := stv
      simp [setDefaultStbl, hc, _findConfig, hroot]

/-- Witness for C5: the spec scenario, overwriting `/old` with `/new`. -/
theorem setDefaultStbl_loaded_persists_witness :
    (setDefaultStbl sampleEnv "/new" ⟨some sampleConfigOld⟩).1._config =
      some { sampleConfigOld with stringTables := some { defaultPath := "/new" } } ∧
    (setDefaultStbl sampleEnv "/new" ⟨some sampleConfigOld⟩).2 =
      [Effect.writeFile (joinPath sampleEnv.rootPath CONFIG_FILENAME)
        (stringifyConfig { sampleConfigOld with
          stringTables := some { defaultPath := "/new" } })] ∧
    parseConfig (stringifyConfig { sampleConfigOld with
        stringTables := some { defaultPath := "/new" } }) =
      Except.ok { sampleConfigOld with stringTables := some { defaultPath := "/new" } } ∧
    ({ sampleConfigOld with stringTables := some { defaultPath := "/new" } } :
        S4TKConfig).stringTables = some { defaultPath := "/new" } :=
  setDefaultStbl_loaded_persists sampleEnv "/new" ⟨some sampleConfigOld⟩
    sampleConfigOld rfl rfl

/-- C6: with no configuration loaded, `setDefaultStbl` emits one error
notification carrying the Reload Config action, performs no file write, and
leaves the state unchanged; its embedding is a total function, so nothing is
thrown. -/
theorem setDefaultStbl_unloaded_noop (env : Env) (p : String)
    (s : WorkspaceState) (h : s._config = none) :
    setDefaultStbl env p s =
      (s, [Effect.notify (Notification.error
        "Cannot set this STBL as default because no S4TK config is currently loaded."
        [RELOAD_CONFIG_BUTTON])]) ∧
    fileWrites (setDefaultStbl env p s).2 = [] := by
  have he : setDefaultStbl env p s =
      (s, [Effect.notify (Notification.error
        "Cannot set this STBL as default because no S4TK config is currently loaded."
        [RELOAD_CONFIG_BUTTON])]) := by
    simp [setDefaultStbl, h]
  exact ⟨he, by rw [he]; simp [fileWrites]⟩

/-- Witness for C6 in the Unloaded state. -/
theorem setDefaultStbl_unloaded_noop_witness :
    setDefaultStbl sampleEnv "/new" ⟨none⟩ =
      (⟨none⟩, [Effect.notify (Notification.error
        "Cannot set this STBL as default because no S4TK config is currently loaded."
        [RELOAD_CONFIG_BUTTON])]) ∧
    fileWrites (setDefaultStbl sampleEnv "/new" ⟨none⟩).2 = [] :=
  setDefaultStbl_unloaded_noop sampleEnv "/new" ⟨none⟩ rfl

/-- C7: when the backing file cannot be re-resolved at write time (no
workspace root), `setDefaultStbl` reports an unrecoverable error with the
Report Problem action, writes nothing, and the in-memory mutation stays
applied but unpersisted — deliberately non-atomic on this path. -/
theorem setDefaultStbl_write_failure_nonatomic (env : Env) (p : String)
    (s : WorkspaceState) (cfg : S4TKConfig)
    (hc : s._config = some cfg) (hroot : env.hasRoot = false) :
    (setDefaultStbl env p s).1._config =
      some { cfg with stringTables := some { defaultPath := p } } ∧
    (setDefaultStbl env p s).2 =
      [Effect.notify (Notification.error
        "Failed to locate config file while updating default STBL. Please report this problem."
        [REPORT_PROBLEM_BUTTON])] ∧
    fileWrites (setDefaultStbl env p s).2 = [] := by
  obtain ⟨bp, st⟩ := cfg
  have he : setDefaultStbl env p s =
      (⟨some { buildPaths := bp, stringTables := some { defaultPath := p } }⟩,
        [Effect.notify (Notification.error
          "Failed to locate config file while updating default STBL. Please report this problem."
          [REPORT_PROBLEM_BUTTON])]) := by
    cases st with
    | none => simp [setDefaultStbl, hc, _findConfig, hroot]
    | some stv =>
      obtain ⟨q⟩ := stv
      simp [setDefaultStbl, hc, _findConfig, hroot]
  rw [he]
  exact ⟨rfl, rfl, by simp [fileWrites]⟩

/-- Witness for C7: mutation applied in memory, nothing written, error with
the Report Problem action. -/
theorem setDefaultStbl_write_failure_nonatomic_witness :
    (setDefaultStbl { sampleEnv with hasRoot := false } "/new"
        ⟨some sampleConfigOld⟩).1._config =
      some { sampleConfigOld with stringTables := some { defaultPath := "/new" } } ∧
    (setDefaultStbl { sampleEnv with hasRoot := false } "/new"
        ⟨some sampleConfigOld⟩).2 =
      [Effect.notify (Notification.error
        "Failed to locate config file while updating default STBL. Please report this problem."
        [REPORT_PROBLEM_BUTTON])] ∧
    fileWrites (setDefaultStbl { sampleEnv with hasRoot := false } "/new"
        ⟨some sampleConfigOld⟩).2 = [] :=
  setDefaultStbl_write_failure_nonatomic { sampleEnv with hasRoot := false }
    "/new" ⟨some sampleConfigOld⟩ sampleConfigOld rfl rfl

/-- C8: when the config file already exists at the project root,
`createDefaultProject` only warns: no file write, no directory creation, and
the in-memory state is unchanged. -/
theorem createDefaultProject_existing_noop (env : Env) (s : WorkspaceState)
    (h : (_findConfig env).fileExists = true) :
    createDefaultProject env s =
      (s, [Effect.notify (Notification.warning "S4TK config file already exists." [])]) ∧
    fileWrites (createDefaultProject env s).2 = [] ∧
    dirCreates (createDefaultProject env s).2 = [] := by
  have he : createDefaultProject env s =
      (s, [Effect.notify (Notification.warning "S4TK config file already exists." [])]) := by
    simp [createDefaultProject, h]
  rw [he]
  exact ⟨rfl, by simp [fileWrites], by simp [dirCreates]⟩

/-- Witness for C8 on an already-initialized project. -/
theorem createDefaultProject_existing_noop_witness :
    createDefaultProject sampleEnv ⟨some sampleConfig⟩ =
      (⟨some sampleConfig⟩,
        [Effect.notify (Notification.warning "S4TK config file already exists." [])]) ∧
    fileWrites (createDefaultProject sampleEnv ⟨some sampleConfig⟩).2 = [] ∧
    dirCreates (createDefaultProject sampleEnv ⟨some sampleConfig⟩).2 = [] :=
  createDefaultProject_existing_noop sampleEnv ⟨some sampleConfig⟩ rfl

/-- The `active` context key is consistent after an operation: if the
operation pushed any values to `s4tk.workspace.active`, the last pushed value
equals the new `active` flag; if it pushed none, the flag is unchanged.  This
expresses that the externally visible flag always equals (state is Loaded). -/
def contextConsistent (s s1 : WorkspaceState) (effs : List Effect) : Prop :=
  match (contextUpdates effs).getLast? with
  | some b => b = active s1
  | none => active s1 = active s

theorem contextUpdates_append (a b : List Effect) :
    contextUpdates (a ++ b) = contextUpdates a ++ contextUpdates b := by
  simp [contextUpdates]

/-- `loadConfig` always ends with a context push equal to its final `active`
flag (on every branch, success or failure). -/
theorem contextUpdates_loadConfig (env : Env) (opts : LoadOptions)
    (s : WorkspaceState) :
    (contextUpdates (loadConfig env opts s).2.1).getLast? =
      some (active (loadConfig env opts s).1) := by
  by_cases hroot : env.hasRoot = true
  · by_cases hex : env.configExists = true
    · cases hp : parseConfig env.configContent with
      | ok cfg =>
        rw [loadConfig_success_eq env opts s cfg hroot hex hp]
        simp [contextUpdates, active]
      | error err =>
        rw [loadConfig_parseError_eq env opts s err hroot hex hp]
        simp [contextUpdates, active]
    · rw [loadConfig_noFile_eq env opts s (Or.inr (Bool.not_eq_true _ ▸ hex))]
      cases hw : opts.showNoConfigError <;> simp [contextUpdates, active, hw]
  · rw [loadConfig_noFile_eq env opts s (Or.inl (Bool.not_eq_true _ ▸ hroot))]
    cases hw : opts.showNoConfigError <;> simp [contextUpdates, active, hw]

/-- C9: the private setter is the single point that assigns the `_config`
slot, and it always pushes `Boolean(config)` to the host context key; as a
consequence, after each operation (`loadConfig`, the delete handler,
`setDefaultStbl`, `createDefaultProject`) the last pushed context value equals
the resulting `active` flag, and operations that push nothing leave the flag
unchanged — the externally visible flag always equals (state is Loaded). -/
theorem config_setter_propagates_active (env : Env) (s : WorkspaceState)
    (c : Option S4TKConfig) (opts : LoadOptions) (p : String)
    (paths : List String) :
    setConfig s c =
      ({ _config := c }, [Effect.setContext "s4tk.workspace.active" c.isSome]) ∧
    active { _config := c } = c.isSome ∧
    contextConsistent s (loadConfig env opts s).1 (loadConfig env opts s).2.1 ∧
    contextConsistent s (onDidDeleteFiles paths s).1 (onDidDeleteFiles paths s).2 ∧
    contextConsistent s (setDefaultStbl env p s).1 (setDefaultStbl env p s).2 ∧
    contextConsistent s (createDefaultProject env s).1
      (createDefaultProject env s).2 := by
  refine ⟨rfl, rfl, ?_, ?_, ?_, ?_⟩
  · have h := contextUpdates_loadConfig env opts s
    simp [contextConsistent, h]
  · cases h : paths.any (fun q => endsWith q CONFIG_FILENAME) <;>
      simp [contextConsistent, onDidDeleteFiles, h, setConfig, contextUpdates, active]
  · cases hc : s._config with
    | none => simp [contextConsistent, setDefaultStbl, hc, contextUpdates, active]
    | some cfg =>
      cases hroot : env.hasRoot <;>
        simp [contextConsistent, setDefaultStbl, hc, _findConfig, hroot,
          contextUpdates, active]
  · by_cases hex : (_findConfig env).fileExists = true
    · simp [contextConsistent, createDefaultProject, hex, contextUpdates, active]
    · replace hex := Bool.not_eq_true _ ▸ hex
      cases huri : (_findConfig env).uri with
      | none =>
        simp [contextConsistent, createDefaultProject, hex, huri,
          contextUpdates, active]
      | some uri =>
        rcases hlc : loadConfig (afterConfigWrite env) {} s with ⟨s1, loadEffs, r⟩
        have h := contextUpdates_loadConfig (afterConfigWrite env) {} s
        rw [hlc] at h
        have hs1 : (createDefaultProject env s).1 = s1 := by
          simp [createDefaultProject, hex, huri, hlc]
        have hcu : contextUpdates (createDefaultProject env s).2 =
            contextUpdates loadEffs := by
          cases hs : env.stblExists <;>
            simp [createDefaultProject, hex, huri, hlc, hs, contextUpdates]
        unfold contextConsistent
        rw [hs1, hcu, show (contextUpdates loadEffs).getLast? = some (active s1) from h]

/-- C10: `isURI` is total (it returns a plain boolean; every thrown error of
the URL constructor is caught): it returns `true` exactly when the URL
constructor accepts the input, and `false` exactly when the constructor
throws. -/
theorem isURI_true_iff_url_ok {α ε υ : Type} (tryURL : α → Except ε υ) (x : α) :
    (isURI tryURL x = true ↔ ∃ u, tryURL x = Except.ok u) ∧
    (isURI tryURL x = false ↔ ∃ e, tryURL x = Except.error e) := by
  cases h : tryURL x <;> simp [isURI, h]

end S4TK
